import Mathlib

/-!
Verification of the postgres MCP server (`server.py`).

The development shallowly embeds the pure logic of the server: the query
classifier `classify_query_type`, the execution gateway
(`execute_select_query`, `execute_write_query`, `get_sample_data`) with its
confirmation handshake, the introspection formatting (`list_schemas`,
`list_tables`, `describe_table`), and the singleton connection provider
(`DatabaseConnection.__new__`).

Effects are made explicit: the database driver is an oracle (`DB`), and each
execution-gateway operation returns its text result together with a trace of
`Event`s recording, in order, every call of the classifier and every statement
submitted to the driver.  "No database access" is then "no `Event.driver` in
the trace".
-/

namespace PGMCP

/-! ### Python string primitives

Python `str.startswith` is a prefix test; we model it, and `str.strip()` /
`str.upper()`, on the underlying character lists (the inputs of interest are
ASCII SQL text). -/

/-- Python `s.startswith(pre)`: `pre` is a prefix of `s`. -/
def pyStartswith (s pre : String) : Bool := pre.data.isPrefixOf s.data

/-- Python `s.strip()`: drop whitespace from both ends. -/
def pyStrip (s : String) : String :=
  ⟨(((s.data.dropWhile Char.isWhitespace).reverse).dropWhile Char.isWhitespace).reverse⟩

/-- Python `s.upper()`: uppercase character by character. -/
def pyUpper (s : String) : String := ⟨s.data.map Char.toUpper⟩

/-! ### Query classifier (`classify_query_type`, server.py lines 64–95) -/

def dml_keywords : List String := ["INSERT", "UPDATE", "DELETE", "MERGE"]

def ddl_keywords : List String := ["CREATE", "ALTER", "DROP", "TRUNCATE", "RENAME"]

def dcl_keywords : List String := ["GRANT", "REVOKE"]

def tcl_keywords : List String := ["COMMIT", "ROLLBACK", "SAVEPOINT"]

/-- The body of `classify_query_type` after `sql_upper = sql_query.strip().upper()`
has been computed. -/
def classify_upper (sql_upper : String) : String :=
  if pyStartswith sql_upper "SELECT" || pyStartswith sql_upper "WITH" then "DQL"
  else if dml_keywords.any (fun kw => pyStartswith sql_upper kw) then "DML"
  else if ddl_keywords.any (fun kw => pyStartswith sql_upper kw) then "DDL"
  else if dcl_keywords.any (fun kw => pyStartswith sql_upper kw) then "DCL"
  else if tcl_keywords.any (fun kw => pyStartswith sql_upper kw) then "TCL"
  else "UNKNOWN"

/-- Embedding of `classify_query_type(sql_query)` from server.py. -/
def classify_query_type (sql_query : String) : String :=
  classify_upper (pyUpper (pyStrip sql_query))

/-- The leading token of a string: its first whitespace-delimited word
(the claims' wording; not part of the source). -/
def leadingToken (s : String) : String :=
  ⟨s.data.takeWhile (fun c => !c.isWhitespace)⟩

/-- Spec-side classifier following claim C4's words literally: the trimmed,
uppercased statement's *leading token* is tested for membership in the fixed
keyword sets, in the stated priority order.  Written to be compared with the
source's `classify_query_type`, which uses `startswith` instead. -/
def classify_by_token_membership (sql_query : String) : String :=
  let tok := leadingToken (pyUpper (pyStrip sql_query))
  if tok = "SELECT" || tok = "WITH" then "DQL"
  else if dml_keywords.contains tok then "DML"
  else if ddl_keywords.contains tok then "DDL"
  else if dcl_keywords.contains tok then "DCL"
  else if tcl_keywords.contains tok then "TCL"
  else "UNKNOWN"

/-! ### The driver oracle and the event trace

`DB` packages every interaction the server has with the database layer:
`connectParams` models `DatabaseConnection()` + `get_connection_params()` +
`psycopg2.connect(...)` (everything that can fail before a statement is
submitted), `select`/`write` model `cursor.execute` + fetch/commit on a
caller-supplied statement, and the remaining fields model the SQLAlchemy
inspector calls used by introspection.  `Except.error e` models a raised
exception with message `str(e)`.

Each execution-gateway operation additionally returns a `List Event`
recording, in program order, each call of `classify_query_type` and each
statement submitted to the driver via `cursor.execute`. -/

inductive Event where
  | classify (stmt : String)
  | driver (stmt : String)
deriving DecidableEq, Repr

/-- One result row as produced by `RealDictCursor`: ordered
(column name, `str(value)`) pairs. -/
abbrev Row := List (String × String)

/-- One column descriptor as reported by `inspector.get_columns`. -/
structure Col where
  name : String
  type : String
  nullable : Bool
  dflt : Option String
deriving DecidableEq, Repr

/-- One foreign key as reported by `inspector.get_foreign_keys`. -/
structure FK where
  constrained_columns : List String
  referred_schema : String
  referred_table : String
  referred_columns : List String
deriving DecidableEq, Repr

structure DB where
  connectParams : Except String Unit
  select : String → Except String (List Row)
  write : String → Except String Int
  schemaNames : Except String (List String)
  tableNames : String → Except String (List String)
  columns : String → String → Except String (List Col)
  pkCols : String → String → Except String (List String)
  fks : String → String → Except String (List FK)

/-! ### Execution gateway (server.py lines 204–318) -/

/-- The `except` branch of both execution paths. -/
def error_exec_text (e sql_query : String) : String :=
  "Error executing query: " ++ e ++ "\n\nQuery attempted:\n" ++ sql_query

/-- Rejection text of `execute_select_query` for non-DQL statements. -/
def select_reject_text (query_type : String) : String :=
  "Error: This tool only executes SELECT queries. Query type detected: "
    ++ query_type ++ ". Use execute_write_query for modifications."

def empty_result_text : String :=
  "Query executed successfully. No results returned (empty result set)."

def dql_redirect_text : String :=
  "Error: SELECT queries should use execute_select_query tool instead."

def unknown_reject_text : String :=
  "Error: Unable to classify query type. Please check your SQL syntax."

/-- The phase-1 response of the write path (the f-string at server.py 279–286). -/
def confirmation_text (query_type sql_query : String) : String :=
  "CONFIRMATION_REQUIRED\nQuery Type: " ++ query_type ++ "\nSQL Query:\n"
    ++ sql_query
    ++ "\n\nThis query will modify the database. It requires user confirmation before execution.\nPlease ask the user: \"Do you want to proceed with this "
    ++ query_type ++ " operation? (yes/no)\"\n"

/-- Model of `str(row[col])`; rows returned by one query all carry the header's keys, so
the `getD` default is never consulted on driver-produced rows. -/
def lookup_str (row : Row) (c : String) : String := (row.lookup c).getD ""

/-- One rendered data row: `" | ".join(str(row[col]) for col in columns)` plus
the newline appended by the row loop. -/
def render_row (columns : List String) (row : Row) : String :=
  String.intercalate " | " (columns.map (fun c => lookup_str row c)) ++ "\n"

/-- The separator line: `"-" * len(" | ".join(columns))`. -/
def sep_line (header : String) : String :=
  String.mk (List.replicate header.length '-')

/-- Result formatting of `execute_select_query` (server.py 227–251), applied to
the fetched rows. -/
def format_select_results (results : List Row) : String :=
  if results.isEmpty then empty_result_text
  else
    let base := "Query returned " ++ toString results.length ++ " row(s):\n\n"
    match results.take 100 with
    | [] => base
    | r0 :: rest =>
      let columns := r0.map Prod.fst
      let header := String.intercalate " | " columns
      let body := String.join ((r0 :: rest).map (render_row columns))
      let note := if results.length > 100 then
          "\n... and " ++ toString (results.length - 100) ++ " more row(s)"
        else ""
      base ++ header ++ "\n" ++ sep_line header ++ "\n" ++ body ++ note

/-- Embedding of `execute_select_query(sql_query)`. -/
def execute_select_query (db : DB) (sql_query : String) : String × List Event :=
  let query_type := classify_query_type sql_query
  if query_type ≠ "DQL" then
    (select_reject_text query_type, [Event.classify sql_query])
  else
    match db.connectParams with
    | Except.error e => (error_exec_text e sql_query, [Event.classify sql_query])
    | Except.ok _ =>
      match db.select sql_query with
      | Except.error e =>
        (error_exec_text e sql_query, [Event.classify sql_query, Event.driver sql_query])
      | Except.ok results =>
        (format_select_results results, [Event.classify sql_query, Event.driver sql_query])

/-- Embedding of `execute_write_query(sql_query, confirmed)`. -/
def execute_write_query (db : DB) (sql_query : String) (confirmed : Bool) :
    String × List Event :=
  let query_type := classify_query_type sql_query
  if query_type = "DQL" then
    (dql_redirect_text, [Event.classify sql_query])
  else if query_type = "UNKNOWN" then
    (unknown_reject_text, [Event.classify sql_query])
  else if !confirmed then
    (confirmation_text query_type sql_query, [Event.classify sql_query])
  else
    match db.connectParams with
    | Except.error e => (error_exec_text e sql_query, [Event.classify sql_query])
    | Except.ok _ =>
      match db.write sql_query with
      | Except.error e =>
        (error_exec_text e sql_query, [Event.classify sql_query, Event.driver sql_query])
      | Except.ok affected_rows =>
        ("Query executed successfully. " ++ toString affected_rows ++ " row(s) affected.",
         [Event.classify sql_query, Event.driver sql_query])

/-- The statement built by `get_sample_data` (server.py 315). -/
def sample_query (table_name schema_name : String) (limit : Int) : String :=
  "SELECT * FROM \"" ++ schema_name ++ "\".\"" ++ table_name ++ "\" LIMIT "
    ++ toString limit

/-- Embedding of `get_sample_data(table_name, schema_name, limit)`: delegates to the read
path (its own `except` clause is unreachable since the delegate never raises). -/
def get_sample_data (db : DB) (table_name schema_name : String) (limit : Int) :
    String × List Event :=
  execute_select_query db (sample_query table_name schema_name limit)

/-! ### Introspection service (server.py lines 104–201) -/

/-- Embedding of `list_schemas()`. -/
def list_schemas (db : DB) : String :=
  match db.schemaNames with
  | Except.error e => "Error listing schemas: " ++ e
  | Except.ok schemas =>
    let user_schemas :=
      schemas.filter (fun s => ! (["pg_catalog", "information_schema", "pg_toast"].contains s))
    if user_schemas.isEmpty then "No user schemas found in the database."
    else
      "Available schemas in OMNI_STORE:\n"
        ++ String.intercalate "\n" (user_schemas.map (fun schema => "  - " ++ schema))

/-- Embedding of `list_tables(schema_name)`. -/
def list_tables (db : DB) (schema_name : String) : String :=
  match db.tableNames schema_name with
  | Except.error e => "Error listing tables: " ++ e
  | Except.ok tables =>
    if tables.isEmpty then "No tables found in schema '" ++ schema_name ++ "'."
    else
      "Tables in schema '" ++ schema_name ++ "':\n"
        ++ String.intercalate "\n" (tables.map (fun table => "  - " ++ table))

/-- One column line of `describe_table`: the f-string is `.strip()`ped (which
also removes the two-space indent) and a newline is re-appended. -/
def column_line (col : Col) : String :=
  let nullable := if col.nullable then "NULL" else "NOT NULL"
  let d := match col.dflt with
    | some v => if v.isEmpty then "" else "DEFAULT " ++ v
    | none => ""
  pyStrip ("  - " ++ col.name ++ ": " ++ col.type ++ " " ++ nullable ++ " " ++ d ++ "\n")
    ++ "\n"

/-- One foreign-key line of `describe_table`. -/
def fk_line (fk : FK) : String :=
  "  - " ++ String.intercalate ", " fk.constrained_columns ++ " -> "
    ++ fk.referred_schema ++ "." ++ fk.referred_table
    ++ "(" ++ String.intercalate ", " fk.referred_columns ++ ")\n"

/-- Embedding of `describe_table(table_name, schema_name)`. -/
def describe_table (db : DB) (table_name schema_name : String) : String :=
  match db.columns table_name schema_name with
  | Except.error e => "Error describing table: " ++ e
  | Except.ok columns =>
    if columns.isEmpty then
      "Table '" ++ schema_name ++ "." ++ table_name ++ "' not found."
    else
      let base := "Table: " ++ schema_name ++ "." ++ table_name ++ "\n\nColumns:\n"
        ++ String.join (columns.map column_line)
      match db.pkCols table_name schema_name with
      | Except.error e => "Error describing table: " ++ e
      | Except.ok pk =>
        let withPk :=
          if !pk.isEmpty then
            base ++ "\nPrimary Key: " ++ String.intercalate ", " pk ++ "\n"
          else base
        match db.fks table_name schema_name with
        | Except.error e => "Error describing table: " ++ e
        | Except.ok fkList =>
          if fkList.isEmpty then withPk
          else withPk ++ "\nForeign Keys:\n" ++ String.join (fkList.map fk_line)

/-! ### Connection provider (server.py lines 22–61)

`DatabaseConnection.__new__` together with `_initialize_connection`, as a state
machine over the class attribute `_instance`.  The crucial source detail:
`cls._instance = super().__new__(cls)` is executed *before*
`cls._instance._initialize_connection()`, so the instance is already cached
when initialization raises `ValueError`. -/

/-- The relevant process environment (`os.getenv` results). -/
structure Env where
  DB_HOST : Option String
  DB_NAME : Option String
  DB_USER : Option String
  DB_PASSWORD : Option String
deriving DecidableEq, Repr

/-- Python truthiness of an `os.getenv` result: `None` and `""` are falsy. -/
def pyTruthy : Option String → Bool
  | none => false
  | some s => !s.isEmpty

/-- A `DatabaseConnection` instance; `engine = none` models the class-level
`_engine = None` default (no engine was created for it). -/
structure DBInstance where
  engine : Option String
deriving DecidableEq, Repr

/-- The SQLAlchemy connection string built by `_initialize_connection`. -/
def connection_string (env : Env) : String :=
  "postgresql://" ++ (env.DB_USER.getD "") ++ ":" ++ (env.DB_PASSWORD.getD "")
    ++ "@" ++ (env.DB_HOST.getD "") ++ "/" ++ (env.DB_NAME.getD "")
    ++ "?sslmode=require&channel_binding=require"

/-- Embedding of `_initialize_connection(self)`: raises `ValueError` unless all four
required environment values are truthy, otherwise creates the engine. -/
def initialize_connection (env : Env) : Except String String :=
  if pyTruthy env.DB_HOST && pyTruthy env.DB_NAME && pyTruthy env.DB_USER
      && pyTruthy env.DB_PASSWORD then
    Except.ok (connection_string env)
  else
    Except.error "Missing required database environment variables"

/-- The class attribute `DatabaseConnection._instance`. -/
abbrev SingletonState := Option DBInstance

/-- Embedding of `DatabaseConnection.__new__(cls)`: returns the constructed (or cached)
instance, or the raised exception's message, together with the new value of
`cls._instance`. -/
def databaseConnection_new (env : Env) (st : SingletonState) :
    Except String DBInstance × SingletonState :=
  match st with
  | some inst => (Except.ok inst, some inst)
  | none =>
    -- `cls._instance = super(DatabaseConnection, cls).__new__(cls)`
    let fresh : DBInstance := { engine := none }
    -- `cls._instance._initialize_connection()`
    match initialize_connection env with
    | Except.ok cs => (Except.ok { engine := some cs }, some { engine := some cs })
    | Except.error e => (Except.error e, some fresh)

/-! ## Shared lemmas about the execution gateway -/

/-- The read path always rejects a statement not classified `DQL`, touching
nothing but the classifier. -/
theorem select_reject (db : DB) (sql : String)
    (h : classify_query_type sql ≠ "DQL") :
    execute_select_query db sql =
      (select_reject_text (classify_query_type sql), [Event.classify sql]) := by
  simp only [execute_select_query]
  rw [if_pos h]

/-- The read path on a successfully executed `DQL` statement. -/
theorem select_success (db : DB) (sql : String) (results : List Row)
    (hq : classify_query_type sql = "DQL") (hconn : db.connectParams = Except.ok ())
    (hsel : db.select sql = Except.ok results) :
    execute_select_query db sql =
      (format_select_results results,
       [Event.classify sql, Event.driver sql]) := by
  simp only [execute_select_query]
  rw [if_neg (not_not_intro hq), hconn, hsel]

/-- The write path rejects `DQL` statements whatever `confirmed` is. -/
theorem write_reject_dql (db : DB) (sql : String) (confirmed : Bool)
    (h : classify_query_type sql = "DQL") :
    execute_write_query db sql confirmed =
      (dql_redirect_text, [Event.classify sql]) := by
  simp only [execute_write_query]
  rw [if_pos h]

/-- The write path rejects `UNKNOWN` statements whatever `confirmed` is. -/
theorem write_reject_unknown (db : DB) (sql : String) (confirmed : Bool)
    (h : classify_query_type sql = "UNKNOWN") :
    execute_write_query db sql confirmed =
      (unknown_reject_text, [Event.classify sql]) := by
  simp only [execute_write_query]
  rw [if_neg (by rw [h]; decide), if_pos h]

/-- Phase 1 of the confirmation handshake: a classified write statement with
`confirmed = false` only produces the confirmation prompt. -/
theorem write_confirmation_phase (db : DB) (sql : String)
    (h1 : classify_query_type sql ≠ "DQL")
    (h2 : classify_query_type sql ≠ "UNKNOWN") :
    execute_write_query db sql false =
      (confirmation_text (classify_query_type sql) sql, [Event.classify sql]) := by
  simp only [execute_write_query]
  rw [if_neg h1, if_neg h2]
  simp

/-- The trace of the read path is either classify-only or classify-then-driver,
always on the same statement. -/
theorem select_trace_shape (db : DB) (sql : String) :
    (execute_select_query db sql).2 = [Event.classify sql] ∨
    (execute_select_query db sql).2 = [Event.classify sql, Event.driver sql] := by
  simp only [execute_select_query]
  split
  · exact Or.inl rfl
  · split
    · exact Or.inl rfl
    · split
      · exact Or.inr rfl
      · exact Or.inr rfl

/-- The trace of the write path is either classify-only or classify-then-driver,
always on the same statement. -/
theorem write_trace_shape (db : DB) (sql : String) (confirmed : Bool) :
    (execute_write_query db sql confirmed).2 = [Event.classify sql] ∨
    (execute_write_query db sql confirmed).2 =
      [Event.classify sql, Event.driver sql] := by
  simp only [execute_write_query]
  split
  · exact Or.inl rfl
  · split
    · exact Or.inl rfl
    · split
      · exact Or.inl rfl
      · split
        · exact Or.inl rfl
        · split
          · exact Or.inr rfl
          · exact Or.inr rfl

/-- The confirmation prompt begins with the literal marker. -/
theorem confirmation_text_marker (qt sql : String) :
    ∃ rest, confirmation_text qt sql = "CONFIRMATION_REQUIRED" ++ rest := by
  refine ⟨"\nQuery Type: " ++ qt ++ "\nSQL Query:\n" ++ sql
    ++ "\n\nThis query will modify the database. It requires user confirmation before execution.\nPlease ask the user: \"Do you want to proceed with this "
    ++ qt ++ " operation? (yes/no)\"\n", ?_⟩
  have h : ("CONFIRMATION_REQUIRED\nQuery Type: " : String) =
      "CONFIRMATION_REQUIRED" ++ "\nQuery Type: " := by decide
  simp only [confirmation_text, h, String.append_assoc]

/-- The confirmation prompt contains the detected classification. -/
theorem confirmation_text_contains_type (qt sql : String) :
    ∃ a b, confirmation_text qt sql = a ++ qt ++ b := by
  refine ⟨"CONFIRMATION_REQUIRED\nQuery Type: ",
    "\nSQL Query:\n" ++ sql
      ++ "\n\nThis query will modify the database. It requires user confirmation before execution.\nPlease ask the user: \"Do you want to proceed with this "
      ++ qt ++ " operation? (yes/no)\"\n", ?_⟩
  simp only [confirmation_text, String.append_assoc]

/-- The confirmation prompt contains the exact statement text. -/
theorem confirmation_text_contains_query (qt sql : String) :
    ∃ a b, confirmation_text qt sql = a ++ sql ++ b := by
  refine ⟨"CONFIRMATION_REQUIRED\nQuery Type: " ++ qt ++ "\nSQL Query:\n",
    "\n\nThis query will modify the database. It requires user confirmation before execution.\nPlease ask the user: \"Do you want to proceed with this "
      ++ qt ++ " operation? (yes/no)\"\n", ?_⟩
  simp only [confirmation_text, String.append_assoc]

/-- A driver oracle for concrete evaluation. -/
def trivDB : DB where
  connectParams := Except.ok ()
  select := fun _ => Except.ok []
  write := fun _ => Except.ok 0
  schemaNames := Except.ok []
  tableNames := fun _ => Except.ok []
  columns := fun _ _ => Except.ok []
  pkCols := fun _ _ => Except.ok []
  fks := fun _ _ => Except.ok []

/-! ## Claim theorems -/

/-- C1: For every statement classified DML, DDL, DCL or TCL,
`execute_write_query` with `confirmed = false` performs no database access
(the trace holds no `Event.driver`) and returns a text beginning with the
literal marker `CONFIRMATION_REQUIRED` that contains both the detected
classification and the exact statement text. -/
theorem c1_unconfirmed_write_is_gated (db : DB) (sql_query : String)
    (h : classify_query_type sql_query = "DML" ∨ classify_query_type sql_query = "DDL"
       ∨ classify_query_type sql_query = "DCL" ∨ classify_query_type sql_query = "TCL") :
    execute_write_query db sql_query false =
      (confirmation_text (classify_query_type sql_query) sql_query,
       [Event.classify sql_query]) ∧
    (∃ rest, confirmation_text (classify_query_type sql_query) sql_query =
       "CONFIRMATION_REQUIRED" ++ rest) ∧
    (∃ a b, confirmation_text (classify_query_type sql_query) sql_query =
       a ++ classify_query_type sql_query ++ b) ∧
    (∃ a b, confirmation_text (classify_query_type sql_query) sql_query =
       a ++ sql_query ++ b) := by
  have h1 : classify_query_type sql_query ≠ "DQL" := by
    rcases h with h | h | h | h <;> rw [h] <;> decide
  have h2 : classify_query_type sql_query ≠ "UNKNOWN" := by
    rcases h with h | h | h | h <;> rw [h] <;> decide
  exact ⟨write_confirmation_phase db sql_query h1 h2,
    confirmation_text_marker _ _,
    confirmation_text_contains_type _ _,
    confirmation_text_contains_query _ _⟩

/-- Witness for C1: `execute_write_query("DELETE FROM t", confirmed=false)`
returns exactly the confirmation prompt and never touches the driver. -/
theorem c1_unconfirmed_write_is_gated_witness :
    execute_write_query trivDB "DELETE FROM t" false =
      (confirmation_text "DML" "DELETE FROM t",
       [Event.classify "DELETE FROM t"]) :=
  (c1_unconfirmed_write_is_gated trivDB "DELETE FROM t" (Or.inl (by decide))).1

/-- C3 (divergence): The claim says a failed handle creation caches nothing, so the next
access retries creation.  The source instead assigns `cls._instance` *before*
`_initialize_connection()`: with `DB_HOST` missing, the first call raises the
configuration error but caches an engine-less instance, and a subsequent call —
even with a fully valid environment — returns that cached instance without
retrying initialization. -/
theorem c3_failed_creation_is_cached :
    (databaseConnection_new ⟨none, some "db", some "user", some "pw"⟩ none =
      (Except.error "Missing required database environment variables",
       some { engine := none })) ∧
    (databaseConnection_new ⟨some "host", some "db", some "user", some "pw"⟩
        (some { engine := none }) =
      (Except.ok { engine := none }, some { engine := none })) :=
  ⟨rfl, rfl⟩

/-- C7: Mis-routed statements are rejected without database access: the read
path rejects any non-DQL statement with a text naming the detected
classification, and the write path rejects DQL statements (redirect) and
UNKNOWN statements (unclassifiable), in every case with a classify-only
trace. -/
theorem c7_misrouted_statements_rejected (db : DB) (sql_query : String)
    (confirmed : Bool) :
    (classify_query_type sql_query ≠ "DQL" →
      execute_select_query db sql_query =
        (select_reject_text (classify_query_type sql_query),
         [Event.classify sql_query]) ∧
      ∃ a b, select_reject_text (classify_query_type sql_query) =
        a ++ classify_query_type sql_query ++ b) ∧
    (classify_query_type sql_query = "DQL" →
      execute_write_query db sql_query confirmed =
        (dql_redirect_text, [Event.classify sql_query])) ∧
    (classify_query_type sql_query = "UNKNOWN" →
      execute_write_query db sql_query confirmed =
        (unknown_reject_text, [Event.classify sql_query])) := by
  refine ⟨fun h => ⟨select_reject db sql_query h, ?_⟩,
    write_reject_dql db sql_query confirmed,
    write_reject_unknown db sql_query confirmed⟩
  exact ⟨"Error: This tool only executes SELECT queries. Query type detected: ",
    ". Use execute_write_query for modifications.", rfl⟩

/-- Witness for C7 at `INSERT INTO t VALUES (1)` (DML, so the read path
rejects it naming `DML`). -/
theorem c7_misrouted_statements_rejected_witness :
    execute_select_query trivDB "INSERT INTO t VALUES (1)" =
      (select_reject_text "DML", [Event.classify "INSERT INTO t VALUES (1)"]) :=
  ((c7_misrouted_statements_rejected trivDB "INSERT INTO t VALUES (1)" false).1
    (by decide)).1

/-- C10: `confirmed = true` cannot bypass classification: a DQL or UNKNOWN
statement is rejected by the write path for every value of `confirmed`, and an
UNKNOWN statement never reaches the driver through either public execution
path. -/
theorem c10_confirmed_cannot_bypass (db : DB) (sql_query : String)
    (confirmed : Bool) :
    (classify_query_type sql_query = "DQL" →
      execute_write_query db sql_query confirmed =
        (dql_redirect_text, [Event.classify sql_query])) ∧
    (classify_query_type sql_query = "UNKNOWN" →
      execute_write_query db sql_query confirmed =
        (unknown_reject_text, [Event.classify sql_query]) ∧
      execute_select_query db sql_query =
        (select_reject_text "UNKNOWN", [Event.classify sql_query]) ∧
      (∀ s, Event.driver s ∉ (execute_write_query db sql_query confirmed).2) ∧
      (∀ s, Event.driver s ∉ (execute_select_query db sql_query).2)) := by
  refine ⟨write_reject_dql db sql_query confirmed, fun h => ?_⟩
  have hsel : execute_select_query db sql_query =
      (select_reject_text "UNKNOWN", [Event.classify sql_query]) := by
    have := select_reject db sql_query (by rw [h]; decide)
    rwa [h] at this
  have hwr := write_reject_unknown db sql_query confirmed h
  refine ⟨hwr, hsel, ?_, ?_⟩
  · intro s
    rw [hwr]
    simp
  · intro s
    rw [hsel]
    simp

/-- A trace is classification-disciplined when every statement submitted to
the driver was put through the classifier at an earlier position. -/
def classified_before_driver (tr : List Event) : Prop :=
  ∀ (i : Fin tr.length) (s : String), tr.get i = Event.driver s →
    ∃ j : Fin tr.length, (j : Nat) < (i : Nat) ∧ tr.get j = Event.classify s

theorem cbd_classify_only (s : String) :
    classified_before_driver [Event.classify s] := by
  rintro ⟨i, hi⟩ t h
  simp only [List.length_cons, List.length_nil] at hi
  interval_cases i
  exact absurd h (by simp)

theorem cbd_classify_driver (s : String) :
    classified_before_driver [Event.classify s, Event.driver s] := by
  rintro ⟨i, hi⟩ t h
  simp only [List.length_cons, List.length_nil] at hi
  interval_cases i
  · exact absurd h (by simp)
  · have hst : s = t := by simpa using h
    exact ⟨⟨0, by simp⟩, by simp, by simp [hst]⟩

/-- C2: In every execution path that can send a caller-supplied statement to
the database (`execute_select_query`, `execute_write_query`, and
`get_sample_data` via its delegation), the produced trace is
classification-disciplined: no statement reaches the driver without an earlier
classifier call on that same statement. -/
theorem c2_classify_precedes_driver (db : DB) (sql_query table_name schema_name : String)
    (confirmed : Bool) (limit : Int) :
    classified_before_driver (execute_select_query db sql_query).2 ∧
    classified_before_driver (execute_write_query db sql_query confirmed).2 ∧
    classified_before_driver (get_sample_data db table_name schema_name limit).2 := by
  refine ⟨?_, ?_, ?_⟩
  · rcases select_trace_shape db sql_query with h | h <;> rw [h]
    · exact cbd_classify_only _
    · exact cbd_classify_driver _
  · rcases write_trace_shape db sql_query confirmed with h | h <;> rw [h]
    · exact cbd_classify_only _
    · exact cbd_classify_driver _
  · show classified_before_driver
      (execute_select_query db (sample_query table_name schema_name limit)).2
    rcases select_trace_shape db (sample_query table_name schema_name limit) with h | h
      <;> rw [h]
    · exact cbd_classify_only _
    · exact cbd_classify_driver _

/-- Witness for C2: the discipline holds on a concrete trace of the read
path. -/
theorem c2_classify_precedes_driver_witness :
    classified_before_driver (execute_select_query trivDB "SELECT 1 as test").2 :=
  (c2_classify_precedes_driver trivDB "SELECT 1 as test" "t" "public" false 5).1

/-- A pattern made only of characters satisfying `p` is a prefix of
`l.takeWhile p` exactly when it is a prefix of `l`. -/
theorem isPrefixOf_takeWhile (p : Char → Bool) :
    ∀ (kw l : List Char), kw.all p = true →
      kw.isPrefixOf (l.takeWhile p) = kw.isPrefixOf l
  | [], _, _ => by simp
  | _ :: _, [], _ => by simp [List.takeWhile]
  | a :: as, b :: bs, h => by
    simp only [List.all_cons, Bool.and_eq_true] at h
    by_cases hb : p b
    · rw [List.takeWhile_cons, if_pos hb]
      simp only [List.isPrefixOf_cons₂]
      rw [isPrefixOf_takeWhile p as bs h.2]
    · rw [List.takeWhile_cons, if_neg hb]
      have hab : (a == b) = false := by
        cases hab : a == b
        · rfl
        · exact absurd (beq_iff_eq.mp hab ▸ h.1) hb
      simp [List.isPrefixOf, hab]

/-- Prefix tests against whitespace-free keywords see only the leading token. -/
theorem pyStartswith_leadingToken (u kw : String)
    (hk : kw.data.all (fun c => ! c.isWhitespace) = true) :
    pyStartswith (leadingToken u) kw = pyStartswith u kw := by
  simp only [pyStartswith, leadingToken]
  exact isPrefixOf_takeWhile _ _ _ hk

/-- The classifier's keyword tests are insensitive to everything after the
leading token. -/
theorem classify_upper_leadingToken (u : String) :
    classify_upper (leadingToken u) = classify_upper u := by
  simp only [classify_upper, dml_keywords, ddl_keywords, dcl_keywords, tcl_keywords,
    List.any_cons, List.any_nil, Bool.or_false]
  rw [pyStartswith_leadingToken u "SELECT" (by decide),
    pyStartswith_leadingToken u "WITH" (by decide),
    pyStartswith_leadingToken u "INSERT" (by decide),
    pyStartswith_leadingToken u "UPDATE" (by decide),
    pyStartswith_leadingToken u "DELETE" (by decide),
    pyStartswith_leadingToken u "MERGE" (by decide),
    pyStartswith_leadingToken u "CREATE" (by decide),
    pyStartswith_leadingToken u "ALTER" (by decide),
    pyStartswith_leadingToken u "DROP" (by decide),
    pyStartswith_leadingToken u "TRUNCATE" (by decide),
    pyStartswith_leadingToken u "RENAME" (by decide),
    pyStartswith_leadingToken u "GRANT" (by decide),
    pyStartswith_leadingToken u "REVOKE" (by decide),
    pyStartswith_leadingToken u "COMMIT" (by decide),
    pyStartswith_leadingToken u "ROLLBACK" (by decide),
    pyStartswith_leadingToken u "SAVEPOINT" (by decide)]

/-- Amended C4, spec side: the same prefix tests in the same priority order,
applied to the statement's leading token only. -/
def classify_token_prefix_spec (sql_query : String) : String :=
  classify_upper (leadingToken (pyUpper (pyStrip sql_query)))

/-- C4 counterexample: The claim describes the classifier as testing the
leading token for *membership* in the keyword sets.  On `"SELECTX"` (leading
token `SELECTX`, a member of no keyword set) the source's prefix-based
classifier yields `DQL`, while the claim's algorithm yields `UNKNOWN`. -/
theorem c4_counterexample_token_membership :
    classify_query_type "SELECTX" = "DQL" ∧
    classify_by_token_membership "SELECTX" = "UNKNOWN" := by decide

/-- C4 amended: `classify_query_type` trims, uppercases, and tests the
keywords in the stated priority order as *string prefixes* of the result
(`startswith`), not by whole-token membership; consequently the category is
still a function of the statement's leading token (first whitespace-delimited
word), to which the same prefix tests are applied. -/
theorem c4_classifier_prefix_of_leading_token (sql_query : String) :
    classify_query_type sql_query = classify_token_prefix_spec sql_query ∧
    (∀ t : String,
      leadingToken (pyUpper (pyStrip sql_query)) = leadingToken (pyUpper (pyStrip t)) →
      classify_query_type sql_query = classify_query_type t) := by
  constructor
  · exact (classify_upper_leadingToken _).symm
  · intro t h
    show classify_upper (pyUpper (pyStrip sql_query)) = classify_upper (pyUpper (pyStrip t))
    rw [← classify_upper_leadingToken (pyUpper (pyStrip sql_query)),
      ← classify_upper_leadingToken (pyUpper (pyStrip t)), h]

/-- Witness for C4 (amended): `"select 1"` and `"SELECT 2"` share the leading
token `SELECT`, hence the same classification. -/
theorem c4_classifier_prefix_of_leading_token_witness :
    classify_query_type "select 1" = classify_query_type "SELECT 2" :=
  (c4_classifier_prefix_of_leading_token "select 1").2 "SELECT 2" (by decide)

/-- Two prefixes of the same string are comparable, so a statement starting
with `kw1` cannot also start with a diverging `kw2`. -/
theorem pyStartswith_false_of_diverge (u kw1 kw2 : String)
    (h : pyStartswith u kw1 = true)
    (hd : (kw1.data.isPrefixOf kw2.data || kw2.data.isPrefixOf kw1.data) = false) :
    pyStartswith u kw2 = false := by
  simp only [pyStartswith] at h ⊢
  cases hc : kw2.data.isPrefixOf u.data
  · rfl
  · exfalso
    have h1 := List.isPrefixOf_iff_prefix.mp h
    have h2 := List.isPrefixOf_iff_prefix.mp hc
    simp only [Bool.or_eq_false_iff] at hd
    rcases List.prefix_or_prefix_of_prefix h1 h2 with hp | hp
    · rw [List.isPrefixOf_iff_prefix.mpr hp] at hd
      exact absurd hd.1 (by decide)
    · rw [List.isPrefixOf_iff_prefix.mpr hp] at hd
      exact absurd hd.2 (by decide)

/-- C5: Prefix `SELECT`/`WITH` (after trim + uppercase) classifies as DQL;
prefix `COMMIT`/`ROLLBACK`/`SAVEPOINT` classifies as TCL; the empty string,
and any string starting with none of the sixteen recognized keywords,
classifies as UNKNOWN. -/
theorem c5_classifier_cases (sql_query : String) :
    ((pyStartswith (pyUpper (pyStrip sql_query)) "SELECT" = true ∨
      pyStartswith (pyUpper (pyStrip sql_query)) "WITH" = true) →
      classify_query_type sql_query = "DQL") ∧
    ((pyStartswith (pyUpper (pyStrip sql_query)) "COMMIT" = true ∨
      pyStartswith (pyUpper (pyStrip sql_query)) "ROLLBACK" = true ∨
      pyStartswith (pyUpper (pyStrip sql_query)) "SAVEPOINT" = true) →
      classify_query_type sql_query = "TCL") ∧
    (sql_query = "" → classify_query_type sql_query = "UNKNOWN") ∧
    ((∀ kw ∈ ["SELECT", "WITH", "INSERT", "UPDATE", "DELETE", "MERGE", "CREATE",
        "ALTER", "DROP", "TRUNCATE", "RENAME", "GRANT", "REVOKE", "COMMIT",
        "ROLLBACK", "SAVEPOINT"],
      pyStartswith (pyUpper (pyStrip sql_query)) kw = false) →
      classify_query_type sql_query = "UNKNOWN") := by
  refine ⟨?_, ?_, ?_, ?_⟩
  · intro h
    simp only [classify_query_type, classify_upper]
    rcases h with h | h <;> simp [h]
  · intro h
    simp only [classify_query_type, classify_upper, dml_keywords, ddl_keywords,
      dcl_keywords, tcl_keywords, List.any_cons, List.any_nil]
    rcases h with h | h | h <;>
      rw [pyStartswith_false_of_diverge _ _ "SELECT" h (by decide),
        pyStartswith_false_of_diverge _ _ "WITH" h (by decide),
        pyStartswith_false_of_diverge _ _ "INSERT" h (by decide),
        pyStartswith_false_of_diverge _ _ "UPDATE" h (by decide),
        pyStartswith_false_of_diverge _ _ "DELETE" h (by decide),
        pyStartswith_false_of_diverge _ _ "MERGE" h (by decide),
        pyStartswith_false_of_diverge _ _ "CREATE" h (by decide),
        pyStartswith_false_of_diverge _ _ "ALTER" h (by decide),
        pyStartswith_false_of_diverge _ _ "DROP" h (by decide),
        pyStartswith_false_of_diverge _ _ "TRUNCATE" h (by decide),
        pyStartswith_false_of_diverge _ _ "RENAME" h (by decide),
        pyStartswith_false_of_diverge _ _ "GRANT" h (by decide),
        pyStartswith_false_of_diverge _ _ "REVOKE" h (by decide)] <;>
      simp [h]
  · intro h
    rw [h]
    decide
  · intro hall
    simp only [classify_query_type, classify_upper, dml_keywords, ddl_keywords,
      dcl_keywords, tcl_keywords, List.any_cons, List.any_nil]
    simp only [hall "SELECT" (by simp), hall "WITH" (by simp), hall "INSERT" (by simp),
      hall "UPDATE" (by simp), hall "DELETE" (by simp), hall "MERGE" (by simp),
      hall "CREATE" (by simp), hall "ALTER" (by simp), hall "DROP" (by simp),
      hall "TRUNCATE" (by simp), hall "RENAME" (by simp), hall "GRANT" (by simp),
      hall "REVOKE" (by simp), hall "COMMIT" (by simp), hall "ROLLBACK" (by simp),
      hall "SAVEPOINT" (by simp)]
    simp

/-- Witness for C5: `" rollback work "` (prefix `ROLLBACK` after trim and
uppercase) is classified TCL. -/
theorem c5_classifier_cases_witness :
    classify_query_type " rollback work " = "TCL" :=
  (c5_classifier_cases " rollback work ").2.1 (Or.inr (Or.inl (by decide)))

/-- Unfolding of the formatter on a nonempty result set. -/
theorem format_select_results_cons (r0 : Row) (rest : List Row) :
    format_select_results (r0 :: rest) =
      "Query returned " ++ toString (r0 :: rest).length ++ " row(s):\n\n"
        ++ String.intercalate " | " (r0.map Prod.fst) ++ "\n"
        ++ sep_line (String.intercalate " | " (r0.map Prod.fst)) ++ "\n"
        ++ String.join (((r0 :: rest).take 100).map (render_row (r0.map Prod.fst)))
        ++ (if (r0 :: rest).length > 100 then
              "\n... and " ++ toString ((r0 :: rest).length - 100) ++ " more row(s)"
            else "") := by
  simp only [format_select_results, List.isEmpty_cons, Bool.false_eq_true, if_false,
    List.take_succ_cons]

/-- C6: For every DQL statement executed by `execute_select_query`: an empty
result set yields the explicit empty-result message; otherwise the output is
the header summary, a pipe-delimited header row, a separator line exactly as
long as the header line, the renderings of at most the first 100 rows, and —
when more than 100 rows exist — a trailing note counting the omitted rows (for
150 rows, exactly 100 rendered rows and a note stating 50 more exist). -/
theorem c6_select_result_shaping (db : DB) (sql_query : String) (results : List Row)
    (hq : classify_query_type sql_query = "DQL")
    (hconn : db.connectParams = Except.ok ())
    (hsel : db.select sql_query = Except.ok results) :
    (execute_select_query db sql_query).1 = format_select_results results ∧
    (results = [] → format_select_results results = empty_result_text) ∧
    (∀ r0 rest, results = r0 :: rest →
      format_select_results results =
        "Query returned " ++ toString results.length ++ " row(s):\n\n"
          ++ String.intercalate " | " (r0.map Prod.fst) ++ "\n"
          ++ sep_line (String.intercalate " | " (r0.map Prod.fst)) ++ "\n"
          ++ String.join ((results.take 100).map (render_row (r0.map Prod.fst)))
          ++ (if results.length > 100 then
                "\n... and " ++ toString (results.length - 100) ++ " more row(s)"
              else "") ∧
      (sep_line (String.intercalate " | " (r0.map Prod.fst))).length
        = (String.intercalate " | " (r0.map Prod.fst)).length ∧
      (results.take 100).length = min 100 results.length) ∧
    (results.length = 150 →
      (results.take 100).length = 100 ∧
      ∃ pre, format_select_results results = pre ++ "\n... and 50 more row(s)") := by
  refine ⟨?_, ?_, ?_, ?_⟩
  · rw [select_success db sql_query results hq hconn hsel]
  · intro h
    rw [h]
    rfl
  · intro r0 rest h
    subst h
    refine ⟨format_select_results_cons r0 rest, ?_, ?_⟩
    · simp [sep_line]
    · simp only [List.length_take]
  · intro h150
    refine ⟨by rw [List.length_take, h150]; omega, ?_⟩
    cases results with
    | nil => simp at h150
    | cons r0 rest =>
      refine ⟨"Query returned " ++ toString (r0 :: rest).length ++ " row(s):\n\n"
        ++ String.intercalate " | " (r0.map Prod.fst) ++ "\n"
        ++ sep_line (String.intercalate " | " (r0.map Prod.fst)) ++ "\n"
        ++ String.join (((r0 :: rest).take 100).map (render_row (r0.map Prod.fst))), ?_⟩
      rw [format_select_results_cons, h150,
        if_pos (by norm_num : (150 : Nat) > 100)]
      exact congrArg (HAppend.hAppend _) (by decide)

/-- Witness for C6 at `SELECT 1 as test` against a one-row oracle. -/
theorem c6_select_result_shaping_witness :
    (execute_select_query
        { trivDB with select := fun _ => Except.ok [[("test", "1")]] }
        "SELECT 1 as test").1 =
      format_select_results [[("test", "1")]] :=
  (c6_select_result_shaping
    { trivDB with select := fun _ => Except.ok [[("test", "1")]] }
    "SELECT 1 as test" [[("test", "1")]] (by decide) rfl rfl).1

/-- C8: Every driver-level error during introspection is caught and turned
into a prefixed text message (for `describe_table`, at each of its three
driver calls); nothing propagates past the operation's boundary (all three
operations are total functions of the oracle). -/
theorem c8_introspection_error_text (db : DB) (table_name schema_name e : String) :
    (db.schemaNames = Except.error e →
      list_schemas db = "Error listing schemas: " ++ e) ∧
    (db.tableNames schema_name = Except.error e →
      list_tables db schema_name = "Error listing tables: " ++ e) ∧
    (db.columns table_name schema_name = Except.error e →
      describe_table db table_name schema_name = "Error describing table: " ++ e) ∧
    (∀ cols, db.columns table_name schema_name = Except.ok cols → cols ≠ [] →
      db.pkCols table_name schema_name = Except.error e →
      describe_table db table_name schema_name = "Error describing table: " ++ e) ∧
    (∀ cols pk, db.columns table_name schema_name = Except.ok cols → cols ≠ [] →
      db.pkCols table_name schema_name = Except.ok pk →
      db.fks table_name schema_name = Except.error e →
      describe_table db table_name schema_name = "Error describing table: " ++ e) := by
  refine ⟨fun h => ?_, fun h => ?_, fun h => ?_,
    fun cols h1 h2 h3 => ?_, fun cols pk h1 h2 h3 h4 => ?_⟩
  · simp only [list_schemas]
    rw [h]
  · simp only [list_tables]
    rw [h]
  · simp only [describe_table]
    rw [h]
  · simp only [describe_table]
    rw [h1]
    cases cols with
    | nil => exact absurd rfl h2
    | cons c cs =>
      simp only [List.isEmpty_cons, Bool.false_eq_true, if_false]
      rw [h3]
  · simp only [describe_table]
    rw [h1]
    cases cols with
    | nil => exact absurd rfl h2
    | cons c cs =>
      simp only [List.isEmpty_cons, Bool.false_eq_true, if_false]
      rw [h3, h4]

/-- An oracle whose driver calls fail with `boom` (columns succeed for tables
other than `broken`, so the later `describe_table` stages are reachable). -/
def errDB : DB where
  connectParams := Except.ok ()
  select := fun _ => Except.ok []
  write := fun _ => Except.ok 0
  schemaNames := Except.error "boom"
  tableNames := fun _ => Except.error "boom"
  columns := fun t _ =>
    if t = "broken" then Except.error "boom"
    else Except.ok [{ name := "id", type := "INTEGER", nullable := false, dflt := none }]
  pkCols := fun _ _ => Except.error "boom"
  fks := fun _ _ => Except.error "boom"

/-- Witness for C8: each introspection operation surfaces the driver error with
its prefix. -/
theorem c8_introspection_error_text_witness :
    list_schemas errDB = "Error listing schemas: boom" ∧
    list_tables errDB "public" = "Error listing tables: boom" ∧
    describe_table errDB "broken" "public" = "Error describing table: boom" ∧
    describe_table errDB "t" "public" = "Error describing table: boom" :=
  ⟨(c8_introspection_error_text errDB "t" "public" "boom").1 rfl,
   (c8_introspection_error_text errDB "t" "public" "boom").2.1 rfl,
   (c8_introspection_error_text errDB "broken" "public" "boom").2.2.1 rfl,
   (c8_introspection_error_text errDB "t" "public" "boom").2.2.2.1
     [{ name := "id", type := "INTEGER", nullable := false, dflt := none }]
     rfl (by simp) rfl⟩

/-- C9: `get_sample_data` builds exactly
`SELECT * FROM "schema_name"."table_name" LIMIT limit` (identifiers in double
quotes) and returns the result of delegating that statement to
`execute_select_query`; every event in its trace concerns only that built
statement. -/
theorem c9_sample_query_delegation (db : DB) (table_name schema_name : String)
    (limit : Int) :
    sample_query table_name schema_name limit =
      "SELECT * FROM \"" ++ schema_name ++ "\".\"" ++ table_name ++ "\" LIMIT "
        ++ toString limit ∧
    get_sample_data db table_name schema_name limit =
      execute_select_query db (sample_query table_name schema_name limit) ∧
    (∀ ev ∈ (get_sample_data db table_name schema_name limit).2,
      ev = Event.classify (sample_query table_name schema_name limit) ∨
      ev = Event.driver (sample_query table_name schema_name limit)) := by
  refine ⟨rfl, rfl, ?_⟩
  intro ev hev
  have hsh := select_trace_shape db (sample_query table_name schema_name limit)
  have heq : (get_sample_data db table_name schema_name limit).2 =
      (execute_select_query db (sample_query table_name schema_name limit)).2 := rfl
  rw [heq] at hev
  rcases hsh with h | h <;> rw [h] at hev <;> simp at hev
  · exact Or.inl hev
  · rcases hev with hev | hev
    · exact Or.inl hev
    · exact Or.inr hev

/-- Witness for C9: on a concrete oracle the trace of
`get_sample_data("t", "public", 5)` indeed mentions only the built statement. -/
theorem c9_sample_query_delegation_witness :
    Event.classify (sample_query "t" "public" 5) =
      Event.classify (sample_query "t" "public" 5) ∨
    Event.classify (sample_query "t" "public" 5) =
      Event.driver (sample_query "t" "public" 5) :=
  (c9_sample_query_delegation trivDB "t" "public" 5).2.2 _ (by decide)

/-- Witness for C10: a statement classified UNKNOWN (`EXPLAIN SELECT 1`) is
rejected by the write path even with `confirmed = true`. -/
theorem c10_confirmed_cannot_bypass_witness :
    execute_write_query trivDB "EXPLAIN SELECT 1" true =
      (unknown_reject_text, [Event.classify "EXPLAIN SELECT 1"]) :=
  ((c10_confirmed_cannot_bypass trivDB "EXPLAIN SELECT 1" true).2 (by decide)).1

end PGMCP
